import Mathlib

/-!
# Contract balance monitor (`monitor/contract/monitor.go`)

A shallow embedding of the three functions of the file:

* `StartMonitoring`: the orchestrator. Its side effects (log lines, the
  staging RPC registration, the registry query and every `go` statement) are
  returned as an ordered trace of `Event`s.
* `monitorContractForever`: the poller loop. The outcomes of its `select`
  statement are the input (`Wake`), the loop is a step function on
  `PollerState`.
* `monitorContractOnce`: one poll: fetch, unit conversion, two gauge writes.

The collaborators that live outside the file (`netconf`, `xchain`,
`contracts`, the RPC client) are parameters (`Env`, the `Wake` answers).
-/

namespace Monitor

/-! ## Data model -/

/-- Go `error` values, carried by their message. -/
abbrev Error := String

deriving instance DecidableEq for Except

/-- A `netconf.ID`. -/
abbrev NetworkID := String

/-- A `common.Address`. -/
abbrev Address := Nat

/-- A handle on a (non-nil) `ethclient.Client`. -/
abbrev Client := Nat

/-- The fields of `netconf.Chain` the monitor reads. Chain IDs are `uint64`;
they are only compared, so they are kept as natural numbers. -/
structure Chain where
  ID : Nat
  Name : String
deriving DecidableEq, Repr

/-- A `netconf.Network`. -/
structure Network where
  ID : NetworkID
  Chains : List Chain
deriving DecidableEq, Repr

/-- The part of `contracts.FundThresholds` the monitor reads: the value of
`MinBalance()`, a `*big.Int`. -/
structure FundThresholds where
  MinBalance : Int
deriving DecidableEq, Repr

/-- A `contracts.WithFundThreshold`. -/
structure WithFundThreshold where
  Name : String
  Address : Address
  OnlyOmniEVM : Bool
  Thresholds : FundThresholds
deriving DecidableEq, Repr

/-- An `xchain.RPCEndpoints` (`map[string]string`). -/
abbrev RPCEndpoints := String → Option String

/-- The `rpcClients map[uint64]ethclient.Client` argument. A lookup that
misses yields the zero value of the interface type, the nil client: `none`. -/
abbrev RPCClients := Nat → Option Client

/-- The collaborators of `StartMonitoring` that live in other packages. -/
structure Env where
  /-- The constant `netconf.Staging`. -/
  Staging : NetworkID
  /-- The value of `id.Static().OmniExecutionChainID`. -/
  OmniExecutionChainID : NetworkID → Nat
  /-- The method `network.EVMChains()`. -/
  EVMChains : Network → List Chain
  /-- The method `network.Chain(id)`; `none` is `ok == false`. -/
  Chain : Network → Nat → Option Monitor.Chain
  /-- The method `endpoints.ByNameOrID(name, id)`. -/
  ByNameOrID : RPCEndpoints → String → Nat → Except Error String
  /-- The function `contracts.ToFund(ctx, id)`; it reads the staging RPC that
  `contracts.UseStagingOmniRPC` registered, the first argument. -/
  ToFund : Option String → NetworkID → Except Error (List WithFundThreshold)

/-- The arguments of a `go monitorContractForever(ctx, contract, chainName,
client)` statement, together with the chain of the loop iteration that
issued it. -/
structure Spawn where
  chain : Chain
  contract : WithFundThreshold
  chainName : String
  client : Option Client
deriving DecidableEq, Repr

/-- The side effects of `StartMonitoring`, in program order. -/
inductive Event where
  | logInfo (msg : String)
  | logError (msg : String) (err : Error)
  | useStagingOmniRPC (rpc : String)
  | toFund (network : NetworkID)
  | go (task : Spawn)
deriving DecidableEq, Repr

/-- What a call of `StartMonitoring` leaves behind: the returned error
(`none` is nil), the registered staging RPC, and the trace. -/
structure StartResult where
  err : Option Error
  stagingRPC : Option String
  trace : List Event
deriving DecidableEq, Repr

/-! ## `StartMonitoring` -/

/-- The inner loop `for _, contract := range toFund` (lines 46-52). -/
def spawnContracts (rpcClients : RPCClients) (chain : Chain) (isOmniEVM : Bool) :
    List WithFundThreshold → List Event
  | [] => []
  | contract :: rest =>
    if contract.OnlyOmniEVM && !isOmniEVM then
      spawnContracts rpcClients chain isOmniEVM rest
    else
      Event.go ⟨chain, contract, chain.Name, rpcClients chain.ID⟩ ::
        spawnContracts rpcClients chain isOmniEVM rest

/-- The outer loop `for _, chain := range network.EVMChains()` (lines 43-53). -/
def spawnChains (env : Env) (network : Network) (rpcClients : RPCClients)
    (toFund : List WithFundThreshold) : List Chain → List Event
  | [] => []
  | chain :: rest =>
    let isOmniEVM := chain.ID == env.OmniExecutionChainID network.ID
    spawnContracts rpcClients chain isOmniEVM toFund ++
      spawnChains env network rpcClients toFund rest

/-- Lines 37-55: the registry query and the spawning loop, run with the
staging RPC `g` and after the events `pre`. -/
def fundAndSpawn (env : Env) (network : Network) (rpcClients : RPCClients)
    (g : Option String) (pre : List Event) : StartResult :=
  match env.ToFund g network.ID with
  | .error err =>
    { err := none, stagingRPC := g,
      trace := pre ++ [Event.toFund network.ID,
        Event.logError "Failed to get contract addreses to monitor - skipping monitoring" err] }
  | .ok toFund =>
    { err := none, stagingRPC := g,
      trace := pre ++ Event.toFund network.ID ::
        spawnChains env network rpcClients toFund (env.EVMChains network) }

/-- Lines 23-35: on staging, resolve the RPC of the staging execution chain
and register it. The result is the registered staging RPC and the events of
the block, or the error the function returns with. -/
def stagingSetup (env : Env) (g : Option String) (network : Network)
    (endpoints : RPCEndpoints) : Except Error (Option String × List Event) :=
  if network.ID = env.Staging then
    match env.Chain network (env.OmniExecutionChainID env.Staging) with
    | none => .error "network missing omniEVM chain"
    | some omniEVM =>
      match env.ByNameOrID endpoints omniEVM.Name omniEVM.ID with
      | .error err => .error err
      | .ok omniEVMRPC => .ok (some omniEVMRPC, [Event.useStagingOmniRPC omniEVMRPC])
  else
    .ok (g, [])

/-- The function `StartMonitoring` (lines 18-56). `g` is the staging RPC registered before
the call. -/
def StartMonitoring (env : Env) (g : Option String) (network : Network)
    (endpoints : RPCEndpoints) (rpcClients : RPCClients) : StartResult :=
  let pre := [Event.logInfo "Monitoring contracts"]
  match stagingSetup env g network endpoints with
  | .error err => { err := some err, stagingRPC := g, trace := pre }
  | .ok (g1, evs) => fundAndSpawn env network rpcClients g1 (pre ++ evs)

/-- The tasks spawned by a trace, in order. -/
def spawned : List Event → List Spawn
  | [] => []
  | Event.go task :: rest => task :: spawned rest
  | _ :: rest => spawned rest

/-- The label values `(chainName, contract.Name)` a task passes to both
gauges. -/
def Spawn.labels (t : Spawn) : String × String := (t.chainName, t.contract.Name)

/-- The spawned tasks of the loop iteration for `chain` and `contract`. -/
def tasksFor (chain : Chain) (contract : WithFundThreshold) (tasks : List Spawn) : List Spawn :=
  tasks.filter fun t => t.chain = chain ∧ t.contract = contract

/-! ## `float64`

The values of Go's `float64` that the monitor can produce: a finite value is
carried by the rational it denotes. An integer conversion and a division by
`1e18` never produce a negative zero, so the sign of zero is not kept. -/

/-- A `float64`. -/
inductive Float64 where
  | finite (q : ℚ)
  | inf (negative : Bool)
  | nan
deriving DecidableEq

/-- Round a non-negative rational to the nearest integer, ties to even. -/
def roundHalfEven (q : ℚ) : Int :=
  let f := ⌊q⌋
  let r := q - f
  if r < 1 / 2 then f else if 1 / 2 < r then f + 1 else if f % 2 = 0 then f else f + 1

/-- IEEE 754 binary64 rounding, to nearest and ties to even: 53 bits of
precision, least exponent of the last place `-1074`, overflow to infinity. -/
def Float64.round (q : ℚ) : Float64 :=
  if q = 0 then .finite 0 else
    let e : Int := max (Int.log 2 |q| - 52) (-1074)
    let m := roundHalfEven (|q| / (2 : ℚ) ^ e)
    let v : ℚ := m * (2 : ℚ) ^ e
    if (2 : ℚ) ^ (1024 : Nat) ≤ v then .inf (decide (q < 0))
    else .finite (if q < 0 then -v else v)

/-- The method `(*big.Int).Float64`: the nearest `float64`. -/
def Float64.ofBigInt (x : Int) : Float64 := Float64.round x

/-- The `float64` division `a / b`. -/
def Float64.div : Float64 → Float64 → Float64
  | .finite a, .finite b =>
    if b = 0 then (if a = 0 then .nan else .inf (decide (a < 0))) else Float64.round (a / b)
  | .finite _, .inf _ => .finite 0
  | .inf s, .finite b => .inf (s != decide (b < 0))
  | .inf _, .inf _ => .nan
  | .nan, _ => .nan
  | _, .nan => .nan

/-- The constant `params.Ether = 1e18`, as a `float64`. -/
def Ether : Float64 := .finite 1000000000000000000

/-- The method `(*big.Int).Cmp`. -/
def bigCmp (x y : Int) : Int := if x < y then -1 else if x = y then 0 else 1

/-! ## `monitorContractOnce` and `monitorContractForever` -/

/-- A gauge vector: the last value set for each `(chain, contract)` label
pair, `none` while a series has never been set. -/
abbrev GaugeVec := String × String → Option Float64

/-- The call `g.WithLabelValues(chain, name).Set(v)`. -/
def GaugeVec.set (g : GaugeVec) (chain name : String) (v : Float64) : GaugeVec :=
  fun k => if k = (chain, name) then some v else g k

/-- The two gauge vectors `contractBalance` and `contractBalanceLow`. -/
structure Metrics where
  contractBalance : GaugeVec
  contractBalanceLow : GaugeVec

/-- The observable actions of a poller, in program order. -/
inductive Action where
  | logInfo (msg : String)
  | logWarn (msg : String) (err : Error)
  | balanceAt (client : Client) (address : Address)
  | setContractBalance (chain name : String) (v : Float64)
  | setContractBalanceLow (chain name : String) (v : Float64)
deriving DecidableEq

/-- An action that writes one of the two gauges. -/
def Action.isMetricWrite : Action → Bool
  | .setContractBalance _ _ _ => true
  | .setContractBalanceLow _ _ _ => true
  | _ => false

/-- An action that calls `client.BalanceAt`. -/
def Action.isFetch : Action → Bool
  | .balanceAt _ _ => true
  | _ => false

/-- How a call of `monitorContractOnce` ends: `returned none` is a nil error;
`panicked` is the method call on the nil client. -/
inductive Returned where
  | returned (err : Option Error)
  | panicked
deriving DecidableEq

/-- The outcome of one `monitorContractOnce`. -/
structure OnceResult where
  result : Returned
  metrics : Metrics
  actions : List Action

/-- The function `monitorContractOnce` (lines 94-119). `answer` is what
`client.BalanceAt(ctx, contract.Address, nil)` returns on this call. -/
def monitorContractOnce (contract : WithFundThreshold) (chainName : String)
    (client : Option Client) (answer : Except Error Int) (m : Metrics) : OnceResult :=
  match client with
  | none => { result := .panicked, metrics := m, actions := [] }
  | some cl =>
    match answer with
    | .error err =>
      { result := .returned (some err), metrics := m,
        actions := [Action.balanceAt cl contract.Address] }
    | .ok balance =>
      let bf := Float64.ofBigInt balance
      let balanceEth := bf.div Ether
      let isLow : Float64 :=
        if bigCmp balance contract.Thresholds.MinBalance ≤ 0 then .finite 1 else .finite 0
      { result := .returned none,
        metrics :=
          { contractBalance := m.contractBalance.set chainName contract.Name balanceEth,
            contractBalanceLow := m.contractBalanceLow.set chainName contract.Name isLow },
        actions :=
          [Action.balanceAt cl contract.Address,
           Action.setContractBalance chainName contract.Name balanceEth,
           Action.setContractBalanceLow chainName contract.Name isLow] }

/-- Where a poller stands: blocked in its `select` (`running`), returned
(`exited`), or down with the nil-client panic. -/
inductive Status where
  | running
  | exited
  | panicked
deriving DecidableEq, Repr

/-- The state of a poller and of the gauges it writes. -/
structure PollerState where
  status : Status
  metrics : Metrics

/-- The case the `select` of the poller takes when it wakes up:
`done` is `<-ctx.Done()`; `tick` is `<-ticker.C`, with the answer of the RPC
on this tick and whether `ctx.Err() != nil` once `monitorContractOnce` is
back. -/
inductive Wake where
  | done
  | tick (answer : Except Error Int) (ctxErr : Bool)

/-- The loop `for { select { ... } }` (lines 76-90), run over the wake-ups
that reach it; with none left the poller is blocked in the `select`. -/
def pollerLoop (contract : WithFundThreshold) (chainName : String) (client : Option Client) :
    Metrics → List Wake → PollerState × List Action
  | m, [] => ({ status := .running, metrics := m }, [])
  | m, .done :: _ => ({ status := .exited, metrics := m }, [])
  | m, .tick answer ctxErr :: rest =>
    let once := monitorContractOnce contract chainName client answer m
    match once.result with
    | .panicked => ({ status := .panicked, metrics := once.metrics }, once.actions)
    | .returned err =>
      if ctxErr then
        ({ status := .exited, metrics := once.metrics }, once.actions)
      else
        match err with
        | some e =>
          let next := pollerLoop contract chainName client once.metrics rest
          (next.1, once.actions ++
            Action.logWarn "Monitoring contract failed (will retry)" e :: next.2)
        | none =>
          let next := pollerLoop contract chainName client once.metrics rest
          (next.1, once.actions ++ next.2)

/-- The function `monitorContractForever` (lines 59-91): the start-up log line, then the
loop. -/
def monitorContractForever (contract : WithFundThreshold) (chainName : String)
    (client : Option Client) (m : Metrics) (wakes : List Wake) : PollerState × List Action :=
  let run := pollerLoop contract chainName client m wakes
  (run.1, Action.logInfo "Monitoring account" :: run.2)


/-! ## The spawning loop -/

/-- The task the loop iteration for `chain` and `contract` spawns. -/
def mkSpawn (rpcClients : RPCClients) (chain : Chain) (contract : WithFundThreshold) : Spawn :=
  ⟨chain, contract, chain.Name, rpcClients chain.ID⟩

/-- The applicability filter of line 47: the pairing is kept. -/
def applies (env : Env) (network : Network) (chain : Chain) (contract : WithFundThreshold) : Bool :=
  !(contract.OnlyOmniEVM && !(chain.ID == env.OmniExecutionChainID network.ID))

/-! ## Sample data -/

/-- A sample environment: the staging network is `"staging"`, the execution
chain of every network has ID `1`, every chain of the network is an EVM chain,
and the registry answers `toFund`. -/
def sampleEnv (toFund : Except Error (List WithFundThreshold)) : Env where
  Staging := "staging"
  OmniExecutionChainID := fun _ => 1
  EVMChains := fun network => network.Chains
  Chain := fun network id => network.Chains.find? fun c => c.ID == id
  ByNameOrID := fun endpoints name _ =>
    match endpoints name with
    | some rpc => .ok rpc
    | none => .error "rpc endpoint not found"
  ToFund := fun _ _ => toFund

/-- The execution chain of the sample networks. -/
def omniEVM : Chain := ⟨1, "omni_evm"⟩

/-- A second chain of the sample networks. -/
def opSepolia : Chain := ⟨2, "op_sepolia"⟩

/-- A sample network that is not staging. -/
def devnet : Network := ⟨"devnet", [omniEVM, opSepolia]⟩

/-- A sample staging network without its execution chain. -/
def stagingNoOmni : Network := ⟨"staging", [opSepolia]⟩

/-- A watched contract monitored on every chain. -/
def portal : WithFundThreshold := ⟨"portal", 10, false, ⟨5⟩⟩

/-- A watched contract monitored on the execution chain only. -/
def gasPump : WithFundThreshold := ⟨"gas-pump", 11, true, ⟨7⟩⟩

/-- A second registry entry under the name of `portal`, at another address. -/
def portalTwin : WithFundThreshold := ⟨"portal", 12, false, ⟨5⟩⟩

/-- A client map with an entry for the chains `1` and `2`. -/
def bothClients : RPCClients := fun id => if id = 1 then some 100 else if id = 2 then some 200 else none

/-- A client map without any entry. -/
def noClients : RPCClients := fun _ => none

/-- No RPC endpoint. -/
def noEndpoints : RPCEndpoints := fun _ => none

/-- Gauges that were never set. -/
def noMetrics : Metrics := ⟨fun _ => none, fun _ => none⟩

/-- Two ticks on which the RPC fails while the context is live. -/
def twoTimeouts : List Wake := [.tick (.error "timeout") false, .tick (.error "timeout") false]

/-! ## The spawning loop: lemmas -/

theorem spawned_append (a b : List Event) : spawned (a ++ b) = spawned a ++ spawned b := by
  induction a with
  | nil => rfl
  | cons e a ih => cases e <;> simp [spawned, ih]

theorem spawned_spawnContracts (env : Env) (network : Network) (rpcClients : RPCClients)
    (chain : Chain) (toFund : List WithFundThreshold) :
    spawned (spawnContracts rpcClients chain (chain.ID == env.OmniExecutionChainID network.ID) toFund)
      = (toFund.filter (applies env network chain)).map (mkSpawn rpcClients chain) := by
  induction toFund with
  | nil => rfl
  | cons c rest ih =>
    cases hx : (c.OnlyOmniEVM && !(chain.ID == env.OmniExecutionChainID network.ID)) with
    | false =>
      have h : applies env network chain c = true := by unfold applies; rw [hx]; rfl
      have h1 : ¬ ((c.OnlyOmniEVM && !(chain.ID == env.OmniExecutionChainID network.ID)) = true) := by
        rw [hx]; decide
      simp only [spawnContracts, if_neg h1, spawned, ih, List.filter_cons_of_pos h, List.map_cons,
        mkSpawn]
    | true =>
      have h : ¬ applies env network chain c = true := by unfold applies; rw [hx]; decide
      simp only [spawnContracts, if_pos hx, ih, List.filter_cons_of_neg h]

theorem spawned_spawnChains_cons (env : Env) (network : Network) (rpcClients : RPCClients)
    (toFund : List WithFundThreshold) (chain : Chain) (chains : List Chain) :
    spawned (spawnChains env network rpcClients toFund (chain :: chains))
      = (toFund.filter (applies env network chain)).map (mkSpawn rpcClients chain)
        ++ spawned (spawnChains env network rpcClients toFund chains) := by
  simp only [spawnChains, spawned_append, spawned_spawnContracts]

theorem mem_spawned_spawnChains (env : Env) (network : Network) (rpcClients : RPCClients)
    (toFund : List WithFundThreshold) (chains : List Chain) (t : Spawn) :
    t ∈ spawned (spawnChains env network rpcClients toFund chains) ↔
      t.chain ∈ chains ∧ t.contract ∈ toFund ∧ applies env network t.chain t.contract = true
        ∧ t = mkSpawn rpcClients t.chain t.contract := by
  induction chains with
  | nil => simp [spawnChains, spawned]
  | cons ch chains ih =>
    rw [spawned_spawnChains_cons, List.mem_append, ih]
    constructor
    · rintro (h | h)
      · obtain ⟨c, hc, rfl⟩ := List.mem_map.1 h
        obtain ⟨hc1, hc2⟩ := List.mem_filter.1 hc
        exact ⟨by simp [mkSpawn], hc1, hc2, rfl⟩
      · exact ⟨List.mem_cons_of_mem _ h.1, h.2⟩
    · rintro ⟨h1, h2, h3, h4⟩
      rcases List.mem_cons.1 h1 with h | h
      · left
        rw [h4, h]
        exact List.mem_map.2 ⟨t.contract, List.mem_filter.2 ⟨h2, h ▸ h3⟩, rfl⟩
      · exact Or.inr ⟨h, h2, h3, h4⟩

/-- The tasks of a whole call: none on an early return, else those of the
spawning loop. -/
theorem spawned_StartMonitoring (env : Env) (g : Option String) (network : Network)
    (endpoints : RPCEndpoints) (rpcClients : RPCClients) :
    spawned (StartMonitoring env g network endpoints rpcClients).trace =
      match stagingSetup env g network endpoints with
      | .error _ => []
      | .ok (g1, _) =>
        match env.ToFund g1 network.ID with
        | .error _ => []
        | .ok toFund => spawned (spawnChains env network rpcClients toFund (env.EVMChains network)) := by
  unfold StartMonitoring
  cases hs : stagingSetup env g network endpoints with
  | error e => simp [spawned]
  | ok r =>
    obtain ⟨g1, evs⟩ := r
    have hevs : spawned evs = [] := by
      unfold stagingSetup at hs
      split at hs
      · split at hs
        · cases hs
        · split at hs
          · cases hs
          · cases hs; rfl
      · cases hs; rfl
    simp only [fundAndSpawn]
    cases env.ToFund g1 network.ID with
    | error e => simp [spawned_append, spawned, hevs]
    | ok l => simp [spawned_append, spawned, hevs]


theorem tasksFor_append (chain : Chain) (contract : WithFundThreshold) (a b : List Spawn) :
    tasksFor chain contract (a ++ b) = tasksFor chain contract a ++ tasksFor chain contract b := by
  simp [tasksFor]

theorem length_tasksFor_map (rpcClients : RPCClients) (p : WithFundThreshold → Bool)
    (chain ch : Chain) (contract : WithFundThreshold) (l : List WithFundThreshold) :
    (tasksFor chain contract ((l.filter p).map (mkSpawn rpcClients ch))).length
      = if ch = chain ∧ p contract = true then l.count contract else 0 := by
  induction l with
  | nil => simp [tasksFor]
  | cons c l ih =>
    by_cases hp : p c = true
    · rw [List.filter_cons_of_pos hp, List.map_cons]
      have hsplit : tasksFor chain contract
          (mkSpawn rpcClients ch c :: (l.filter p).map (mkSpawn rpcClients ch))
          = tasksFor chain contract [mkSpawn rpcClients ch c]
            ++ tasksFor chain contract ((l.filter p).map (mkSpawn rpcClients ch)) :=
        tasksFor_append chain contract [mkSpawn rpcClients ch c] _
      rw [hsplit, List.length_append, ih]
      by_cases hch : ch = chain
      · by_cases hc : c = contract
        · subst hc; subst hch
          simp [tasksFor, mkSpawn, hp]
          omega
        · have hc1 : ¬ (c == contract) = true := by simpa using hc
          simp [tasksFor, mkSpawn, hch, hc, List.count_cons, hc1]
      · simp [tasksFor, mkSpawn, hch]
    · rw [List.filter_cons_of_neg hp, ih]
      by_cases hc : c = contract
      · subst hc
        simp [hp]
      · have hc1 : ¬ (c == contract) = true := by simpa using hc
        simp [List.count_cons, hc1]

theorem length_tasksFor_spawnChains (env : Env) (network : Network) (rpcClients : RPCClients)
    (toFund : List WithFundThreshold) (chains : List Chain) (chain : Chain)
    (contract : WithFundThreshold) (happ : applies env network chain contract = true) :
    (tasksFor chain contract (spawned (spawnChains env network rpcClients toFund chains))).length
      = chains.count chain * toFund.count contract := by
  induction chains with
  | nil => simp [spawnChains, spawned, tasksFor]
  | cons ch chains ih =>
    rw [spawned_spawnChains_cons, tasksFor_append, List.length_append, ih, length_tasksFor_map]
    by_cases hch : ch = chain
    · subst hch
      simp [happ, Nat.add_mul, Nat.add_comm]
    · have hc1 : ¬ (ch == chain) = true := by simpa using hch
      simp [hch, List.count_cons, hc1]

theorem applies_iff (env : Env) (network : Network) (chain : Chain) (contract : WithFundThreshold) :
    applies env network chain contract = true ↔
      ¬ (contract.OnlyOmniEVM = true ∧ chain.ID ≠ env.OmniExecutionChainID network.ID) := by
  unfold applies
  cases contract.OnlyOmniEVM <;> by_cases h : chain.ID = env.OmniExecutionChainID network.ID <;>
    simp [h]


theorem labels_nodup_spawnChains (env : Env) (network : Network) (rpcClients : RPCClients)
    (toFund : List WithFundThreshold) (chains : List Chain)
    (hchains : (chains.map Chain.Name).Nodup) (hfund : (toFund.map WithFundThreshold.Name).Nodup) :
    ((spawned (spawnChains env network rpcClients toFund chains)).map Spawn.labels).Nodup := by
  induction chains with
  | nil => simp [spawnChains, spawned]
  | cons ch chains ih =>
    rw [List.map_cons, List.nodup_cons] at hchains
    rw [spawned_spawnChains_cons, List.map_append, List.nodup_append]
    refine ⟨?_, ih hchains.2, ?_⟩
    · rw [List.map_map]
      have hcomp : Spawn.labels ∘ mkSpawn rpcClients ch
          = (fun n => (ch.Name, n)) ∘ WithFundThreshold.Name := by
        funext c; rfl
      rw [hcomp, ← List.map_map]
      refine List.Nodup.map (fun a b h => (Prod.mk.inj h).2) ?_
      exact List.Nodup.sublist (List.Sublist.map _ (List.filter_sublist _)) hfund
    · intro lab h1 h2
      obtain ⟨t1, ht1, rfl⟩ := List.mem_map.1 h1
      obtain ⟨c, _, rfl⟩ := List.mem_map.1 ht1
      obtain ⟨t2, ht2, hlab⟩ := List.mem_map.1 h2
      obtain ⟨hmem, _, _, heq⟩ := (mem_spawned_spawnChains env network rpcClients toFund chains t2).1 ht2
      apply hchains.1
      have hname : t2.chain.Name = ch.Name := by
        have h3 : t2.chainName = ch.Name := congrArg Prod.fst hlab
        rw [heq] at h3
        exact h3
      rw [← hname]
      exact List.mem_map.2 ⟨t2.chain, hmem, rfl⟩

/-! ## The claims on `StartMonitoring` -/

/-- C1: a task that `StartMonitoring` spawns for a contract whose
`OnlyOmniEVM` flag is set is spawned for a chain whose ID is the
`OmniExecutionChainID` of the network: no primary-chain-only contract is ever
paired with another chain. -/
theorem only_omni_evm_on_primary_chain (env : Env) (g : Option String) (network : Network)
    (endpoints : RPCEndpoints) (rpcClients : RPCClients) (t : Spawn)
    (ht : t ∈ spawned (StartMonitoring env g network endpoints rpcClients).trace)
    (honly : t.contract.OnlyOmniEVM = true) :
    t.chain.ID = env.OmniExecutionChainID network.ID := by
  rw [spawned_StartMonitoring] at ht
  split at ht
  · simp at ht
  · split at ht
    · simp at ht
    · obtain ⟨_, _, happ, _⟩ := (mem_spawned_spawnChains _ _ _ _ _ t).1 ht
      by_contra hne
      exact (applies_iff env network t.chain t.contract).1 happ ⟨honly, hne⟩

/-- Witness of C1: on the sample network the task of `gasPump` on the
execution chain is spawned, and its chain is the execution chain. -/
theorem only_omni_evm_on_primary_chain_witness :
    mkSpawn bothClients omniEVM gasPump
        ∈ spawned (StartMonitoring (sampleEnv (.ok [portal, gasPump])) none devnet noEndpoints
            bothClients).trace
      ∧ (mkSpawn bothClients omniEVM gasPump).chain.ID
        = (sampleEnv (.ok [portal, gasPump])).OmniExecutionChainID devnet.ID :=
  ⟨by decide, only_omni_evm_on_primary_chain (sampleEnv (.ok [portal, gasPump])) none devnet
    noEndpoints bothClients (mkSpawn bothClients omniEVM gasPump) (by decide) (by decide)⟩


/-- C2, as stated, fails: with a registry list that names `portal` twice, the
call reaches the spawning loop and the pair of `portal` and the execution
chain, which the filter keeps, gets two tasks, not one. -/
theorem exactly_one_task_fails_on_repeated_entry :
    stagingSetup (sampleEnv (.ok [portal, portal])) none devnet noEndpoints = .ok (none, [])
      ∧ (sampleEnv (.ok [portal, portal])).ToFund none devnet.ID = .ok [portal, portal]
      ∧ omniEVM ∈ (sampleEnv (.ok [portal, portal])).EVMChains devnet
      ∧ portal ∈ [portal, portal]
      ∧ ¬ (portal.OnlyOmniEVM = true
          ∧ omniEVM.ID ≠ (sampleEnv (.ok [portal, portal])).OmniExecutionChainID devnet.ID)
      ∧ (tasksFor omniEVM portal (spawned (StartMonitoring (sampleEnv (.ok [portal, portal])) none
          devnet noEndpoints bothClients).trace)).length = 2
      ∧ (tasksFor omniEVM portal (spawned (StartMonitoring (sampleEnv (.ok [portal, portal])) none
          devnet noEndpoints bothClients).trace)).length ≠ 1 := by
  decide

/-- C2, amended: when `StartMonitoring` reaches the spawning loop and neither
`EVMChains()` nor the registry list repeats an entry, a pair of a chain of
`EVMChains()` and a contract of the registry list that the filter keeps gets
exactly one task, the one with the arguments of the pair. -/
theorem exactly_one_task_per_pair (env : Env) (g g1 : Option String) (evs : List Event)
    (network : Network) (endpoints : RPCEndpoints) (rpcClients : RPCClients)
    (toFund : List WithFundThreshold) (chain : Chain) (contract : WithFundThreshold)
    (hsetup : stagingSetup env g network endpoints = .ok (g1, evs))
    (hfund : env.ToFund g1 network.ID = .ok toFund)
    (hchains : (env.EVMChains network).Nodup) (hlist : toFund.Nodup)
    (hchain : chain ∈ env.EVMChains network) (hcontract : contract ∈ toFund)
    (hkeep : ¬ (contract.OnlyOmniEVM = true ∧ chain.ID ≠ env.OmniExecutionChainID network.ID)) :
    (tasksFor chain contract
        (spawned (StartMonitoring env g network endpoints rpcClients).trace)).length = 1
    ∧ tasksFor chain contract (spawned (StartMonitoring env g network endpoints rpcClients).trace)
        = [mkSpawn rpcClients chain contract] := by
  have hsp : spawned (StartMonitoring env g network endpoints rpcClients).trace
      = spawned (spawnChains env network rpcClients toFund (env.EVMChains network)) := by
    rw [spawned_StartMonitoring, hsetup]
    simp only [hfund]
  have hlen := length_tasksFor_spawnChains env network rpcClients toFund (env.EVMChains network)
    chain contract ((applies_iff env network chain contract).2 hkeep)
  rw [List.count_eq_one_of_mem hchains hchain, List.count_eq_one_of_mem hlist hcontract] at hlen
  rw [hsp]
  refine ⟨hlen, ?_⟩
  obtain ⟨t, ht⟩ := List.length_eq_one.1 hlen
  have hmem : t ∈ tasksFor chain contract
      (spawned (spawnChains env network rpcClients toFund (env.EVMChains network))) := by
    rw [ht]; exact List.mem_singleton_self t
  obtain ⟨hin, hpair⟩ := List.mem_filter.1 hmem
  have hpair1 : t.chain = chain ∧ t.contract = contract := by simpa using hpair
  have heq := ((mem_spawned_spawnChains env network rpcClients toFund _ t).1 hin).2.2.2
  rw [hpair1.1, hpair1.2] at heq
  rw [ht, heq]

/-- Witness of C2 amended: the sample network with the registry list
`[portal, gasPump]`, at the pair of `opSepolia` and `portal`. -/
theorem exactly_one_task_per_pair_witness :
    (tasksFor opSepolia portal
        (spawned (StartMonitoring (sampleEnv (.ok [portal, gasPump])) none devnet noEndpoints
          bothClients).trace)).length = 1
    ∧ tasksFor opSepolia portal
        (spawned (StartMonitoring (sampleEnv (.ok [portal, gasPump])) none devnet noEndpoints
          bothClients).trace)
      = [mkSpawn bothClients opSepolia portal] :=
  exactly_one_task_per_pair (sampleEnv (.ok [portal, gasPump])) none none [] devnet noEndpoints
    bothClients [portal, gasPump] opSepolia portal (by decide) (by decide) (by decide) (by decide)
    (by decide) (by decide) (by decide)

/-- C4: when the registry lookup `contracts.ToFund` is reached and returns an
error, `StartMonitoring` returns a nil error, spawns no task, and the last
thing it does is log that error. -/
theorem registry_failure_is_soft (env : Env) (g g1 : Option String) (evs : List Event)
    (network : Network) (endpoints : RPCEndpoints) (rpcClients : RPCClients) (e : Error)
    (hsetup : stagingSetup env g network endpoints = .ok (g1, evs))
    (hfund : env.ToFund g1 network.ID = .error e) :
    (StartMonitoring env g network endpoints rpcClients).err = none
      ∧ spawned (StartMonitoring env g network endpoints rpcClients).trace = []
      ∧ (StartMonitoring env g network endpoints rpcClients).trace
        = Event.logInfo "Monitoring contracts" :: evs ++ [Event.toFund network.ID,
            Event.logError "Failed to get contract addreses to monitor - skipping monitoring" e] := by
  refine ⟨?_, ?_, ?_⟩
  · simp [StartMonitoring, hsetup, fundAndSpawn, hfund]
  · rw [spawned_StartMonitoring, hsetup]
    simp only [hfund]
  · simp [StartMonitoring, hsetup, fundAndSpawn, hfund]

/-- Witness of C4: the sample network with a registry that fails. -/
theorem registry_failure_is_soft_witness :
    (StartMonitoring (sampleEnv (.error "registry down")) none devnet noEndpoints bothClients).err
        = none
      ∧ spawned (StartMonitoring (sampleEnv (.error "registry down")) none devnet noEndpoints
          bothClients).trace = []
      ∧ (StartMonitoring (sampleEnv (.error "registry down")) none devnet noEndpoints
          bothClients).trace
        = Event.logInfo "Monitoring contracts" :: [] ++ [Event.toFund devnet.ID,
            Event.logError "Failed to get contract addreses to monitor - skipping monitoring"
              "registry down"] :=
  registry_failure_is_soft (sampleEnv (.error "registry down")) none none [] devnet noEndpoints
    bothClients "registry down" (by decide) (by decide)

/-- C5: on the staging network, when `network.Chain` does not find the
staging execution chain, or finds it and `endpoints.ByNameOrID` fails for it,
`StartMonitoring` returns a non-nil error, spawns no task, never calls
`UseStagingOmniRPC` (the registered staging RPC is the one before the call)
and never calls `contracts.ToFund`. -/
theorem staging_failure_is_fatal (env : Env) (g : Option String) (network : Network)
    (endpoints : RPCEndpoints) (rpcClients : RPCClients)
    (hstaging : network.ID = env.Staging)
    (hfail : env.Chain network (env.OmniExecutionChainID env.Staging) = none
      ∨ ∃ omni e, env.Chain network (env.OmniExecutionChainID env.Staging) = some omni
          ∧ env.ByNameOrID endpoints omni.Name omni.ID = .error e) :
    (StartMonitoring env g network endpoints rpcClients).err ≠ none
      ∧ spawned (StartMonitoring env g network endpoints rpcClients).trace = []
      ∧ (∀ rpc, Event.useStagingOmniRPC rpc
          ∉ (StartMonitoring env g network endpoints rpcClients).trace)
      ∧ (StartMonitoring env g network endpoints rpcClients).stagingRPC = g
      ∧ (∀ id, Event.toFund id ∉ (StartMonitoring env g network endpoints rpcClients).trace) := by
  have hsetup : ∃ e, stagingSetup env g network endpoints = .error e := by
    unfold stagingSetup
    rw [if_pos hstaging]
    rcases hfail with h | ⟨omni, e, h1, h2⟩
    · exact ⟨_, by rw [h]⟩
    · exact ⟨e, by rw [h1]; simp only [h2]⟩
  obtain ⟨e, he⟩ := hsetup
  have hres : StartMonitoring env g network endpoints rpcClients
      = { err := some e, stagingRPC := g, trace := [Event.logInfo "Monitoring contracts"] } := by
    simp only [StartMonitoring, he]
  rw [hres]
  simp [spawned]

/-- Witness of C5: a staging network without its execution chain. -/
theorem staging_failure_is_fatal_witness :
    (StartMonitoring (sampleEnv (.ok [portal])) none stagingNoOmni noEndpoints bothClients).err
        ≠ none
      ∧ spawned (StartMonitoring (sampleEnv (.ok [portal])) none stagingNoOmni noEndpoints
          bothClients).trace = []
      ∧ (∀ rpc, Event.useStagingOmniRPC rpc
          ∉ (StartMonitoring (sampleEnv (.ok [portal])) none stagingNoOmni noEndpoints
              bothClients).trace)
      ∧ (StartMonitoring (sampleEnv (.ok [portal])) none stagingNoOmni noEndpoints
          bothClients).stagingRPC = none
      ∧ (∀ id, Event.toFund id
          ∉ (StartMonitoring (sampleEnv (.ok [portal])) none stagingNoOmni noEndpoints
              bothClients).trace) :=
  staging_failure_is_fatal (sampleEnv (.ok [portal])) none stagingNoOmni noEndpoints bothClients
    (by decide) (Or.inl (by decide))


/-- C9, as stated, fails: with two registry entries under the name `portal`
(at different addresses), the two tasks spawned for the execution chain are
distinct and pass the same label pair to the gauges. -/
theorem label_pairs_clash_on_shared_name :
    spawned (StartMonitoring (sampleEnv (.ok [portal, portalTwin])) none ⟨"devnet", [omniEVM]⟩
        noEndpoints bothClients).trace
      = [mkSpawn bothClients omniEVM portal, mkSpawn bothClients omniEVM portalTwin]
    ∧ mkSpawn bothClients omniEVM portal ≠ mkSpawn bothClients omniEVM portalTwin
    ∧ (mkSpawn bothClients omniEVM portal).labels = (mkSpawn bothClients omniEVM portalTwin).labels
    ∧ ¬ ((spawned (StartMonitoring (sampleEnv (.ok [portal, portalTwin])) none
          ⟨"devnet", [omniEVM]⟩ noEndpoints bothClients).trace).map Spawn.labels).Nodup := by
  decide

/-- C9, amended: when the chains of `EVMChains()` have pairwise distinct names
and the entries of the list that this call gets from the registry (the answer
of `contracts.ToFund` after the staging block of the call) have pairwise
distinct names, the label pairs `(chain name, contract name)` of the tasks
spawned by the `StartMonitoring` call are pairwise distinct. A call that
returns before the loop gets no list and spawns nothing. -/
theorem label_pairs_distinct (env : Env) (g : Option String) (network : Network)
    (endpoints : RPCEndpoints) (rpcClients : RPCClients)
    (hchains : ((env.EVMChains network).map Chain.Name).Nodup)
    (hfund : ∀ g1 evs toFund, stagingSetup env g network endpoints = .ok (g1, evs) →
      env.ToFund g1 network.ID = .ok toFund → (toFund.map WithFundThreshold.Name).Nodup) :
    ((spawned (StartMonitoring env g network endpoints rpcClients).trace).map Spawn.labels).Nodup := by
  rw [spawned_StartMonitoring]
  cases hs : stagingSetup env g network endpoints with
  | error e => simp
  | ok r =>
    obtain ⟨g1, evs⟩ := r
    cases hf : env.ToFund g1 network.ID with
    | error e => simp [hf]
    | ok toFund =>
      simp only [hf]
      exact labels_nodup_spawnChains env network rpcClients toFund _ hchains
        (hfund g1 evs toFund hs hf)

/-- Witness of C9 amended: the sample network with the registry list
`[portal, gasPump]`; the call gets exactly that list, whose names differ. -/
theorem label_pairs_distinct_witness :
    stagingSetup (sampleEnv (.ok [portal, gasPump])) none devnet noEndpoints = .ok (none, [])
      ∧ (sampleEnv (.ok [portal, gasPump])).ToFund none devnet.ID = .ok [portal, gasPump]
      ∧ ([portal, gasPump].map WithFundThreshold.Name).Nodup
      ∧ ((spawned (StartMonitoring (sampleEnv (.ok [portal, gasPump])) none devnet noEndpoints
          bothClients).trace).map Spawn.labels).Nodup :=
  ⟨by decide, by decide, by decide,
    label_pairs_distinct (sampleEnv (.ok [portal, gasPump])) none devnet noEndpoints bothClients
      (by decide) (by
        intro g1 evs toFund _ h
        have h1 : toFund = [portal, gasPump] := by
          simp only [sampleEnv] at h
          exact (Except.ok.inj h).symm
        rw [h1]
        decide)⟩

/-- C10, as stated, fails: with a client map that has no entry for the
execution chain, `StartMonitoring` spawns the task all the same and hands it
the nil client, on which the first poll panics. -/
theorem client_lookup_can_miss :
    noClients omniEVM.ID = none
      ∧ spawned (StartMonitoring (sampleEnv (.ok [portal])) none ⟨"devnet", [omniEVM]⟩ noEndpoints
          noClients).trace = [⟨omniEVM, portal, "omni_evm", none⟩]
      ∧ (monitorContractOnce portal "omni_evm" none (.ok 9) noMetrics).result = .panicked := by
  refine ⟨rfl, by decide, rfl⟩

/-- C10, amended: when the client map has an entry for the ID of every chain
of `EVMChains()`, the client handed to a spawned task is the entry of the map
under the ID of the chain of the task, the chain is one of `EVMChains()`, and
`monitorContractOnce` returns on that client, whatever the RPC answers. -/
theorem client_is_map_entry (env : Env) (g : Option String) (network : Network)
    (endpoints : RPCEndpoints) (rpcClients : RPCClients) (t : Spawn)
    (hall : ∀ ch ∈ env.EVMChains network, (rpcClients ch.ID).isSome = true)
    (ht : t ∈ spawned (StartMonitoring env g network endpoints rpcClients).trace) :
    t.chain ∈ env.EVMChains network ∧ t.chainName = t.chain.Name
      ∧ ∃ cl, rpcClients t.chain.ID = some cl ∧ t.client = some cl
          ∧ ∀ answer m, (monitorContractOnce t.contract t.chainName t.client answer m).result
              ≠ .panicked := by
  rw [spawned_StartMonitoring] at ht
  split at ht
  · simp at ht
  · split at ht
    · simp at ht
    · obtain ⟨hmem, _, _, heq⟩ := (mem_spawned_spawnChains _ _ _ _ _ t).1 ht
      have hname : t.chainName = t.chain.Name := by rw [heq]; rfl
      have hclient : t.client = rpcClients t.chain.ID := by rw [heq]; rfl
      obtain ⟨cl, hcl⟩ := Option.isSome_iff_exists.1 (hall t.chain hmem)
      refine ⟨hmem, hname, cl, hcl, hclient.trans hcl, fun answer m => ?_⟩
      rw [hclient, hcl]
      cases answer <;> simp [monitorContractOnce]

/-- Witness of C10 amended: the task of `portal` on `opSepolia` in the sample
network, whose client map covers both chains. -/
theorem client_is_map_entry_witness :
    opSepolia ∈ (sampleEnv (.ok [portal, gasPump])).EVMChains devnet
      ∧ (mkSpawn bothClients opSepolia portal).chainName = opSepolia.Name
      ∧ ∃ cl, bothClients opSepolia.ID = some cl
          ∧ (mkSpawn bothClients opSepolia portal).client = some cl
          ∧ ∀ answer m, (monitorContractOnce portal "op_sepolia" (some 200) answer m).result
              ≠ .panicked :=
  client_is_map_entry (sampleEnv (.ok [portal, gasPump])) none devnet noEndpoints bothClients
    (mkSpawn bothClients opSepolia portal) (by decide) (by decide)

/-! ## `float64`: lemmas -/

theorem roundHalfEven_intCast (m : ℤ) : roundHalfEven (m : ℚ) = m := by
  simp [roundHalfEven]

theorem log_two_of_bounds (q : ℚ) (k : ℤ) (hq : 0 < q) (hlo : (2 : ℚ) ^ k ≤ q)
    (hhi : q < (2 : ℚ) ^ (k + 1)) : Int.log 2 q = k := by
  have h1 : k ≤ Int.log 2 q :=
    (Int.zpow_le_iff_le_log (by norm_num) hq).1 (by exact_mod_cast hlo)
  have h2 : Int.log 2 q < k + 1 :=
    (Int.lt_zpow_iff_log_lt (by norm_num) hq).1 (by exact_mod_cast hhi)
  omega

/-- A positive rational with a 53-bit significand at its own exponent, in the
range of `float64`, is rounded to itself. -/
theorem round_representable (q : ℚ) (k m : ℤ) (hq : 0 < q) (hlo : (2 : ℚ) ^ k ≤ q)
    (hhi : q < (2 : ℚ) ^ (k + 1)) (he : -1074 ≤ k - 52) (hm : q = m * (2 : ℚ) ^ (k - 52))
    (hmax : q < (2 : ℚ) ^ (1024 : ℕ)) : Float64.round q = .finite q := by
  have hlog := log_two_of_bounds q k hq hlo hhi
  have hdiv : q / (2 : ℚ) ^ (k - 52) = (m : ℚ) := by
    have hpos : (0 : ℚ) < (2 : ℚ) ^ (k - 52) := by positivity
    rw [hm]; field_simp
  simp only [Float64.round, abs_of_pos hq, hlog, max_eq_left he, hdiv, roundHalfEven_intCast]
  rw [← hm]
  simp [hq.ne', not_le.mpr hmax, not_lt.mpr hq.le]

theorem round_two : Float64.round 2 = .finite 2 :=
  round_representable 2 1 4503599627370496 (by norm_num) (by norm_num) (by norm_num)
    (by norm_num) (by norm_num [zpow_neg]) (by norm_num)

theorem round_two_ether :
    Float64.round 2000000000000000000 = .finite 2000000000000000000 :=
  round_representable _ 60 7812500000000000 (by norm_num) (by norm_num) (by norm_num)
    (by norm_num) (by norm_num) (by norm_num)

theorem div_finite_of_ne_zero (a b : ℚ) (hb : b ≠ 0) :
    (Float64.finite a).div (Float64.finite b) = Float64.round (a / b) := by
  simp only [Float64.div, if_neg hb]

theorem two_ether_in_ether : (Float64.ofBigInt 2000000000000000000).div Ether = .finite 2 := by
  have hcast : ((2000000000000000000 : Int) : ℚ) = 2000000000000000000 := by norm_num
  have hq : (2000000000000000000 : ℚ) / 1000000000000000000 = 2 := by norm_num
  unfold Float64.ofBigInt Ether
  rw [hcast, round_two_ether, div_finite_of_ne_zero _ _ (by norm_num), hq, round_two]

theorem bigCmp_le_zero (x y : Int) : bigCmp x y ≤ 0 ↔ x ≤ y := by
  unfold bigCmp
  split
  · constructor
    · intro _; omega
    · intro _; decide
  · split
    · constructor
      · intro _; omega
      · intro _; decide
    · constructor
      · intro h; exact absurd h (by decide)
      · intro h; omega

/-! ## The claims on `monitorContractOnce` -/

/-- C3: after a successful fetch of the balance `b`, `monitorContractOnce`
sets the low-balance gauge of its label pair to `1` when `b` is at most the
minimum balance of the contract and to `0` otherwise; so it publishes `1`
exactly when `b ≤ MinBalance()`, `1` at `b = MinBalance()` and `0` at
`b = MinBalance() + 1`. -/
theorem low_balance_gauge (contract : WithFundThreshold) (chainName : String) (cl : Client)
    (m : Metrics) :
    (∀ b : Int,
      (monitorContractOnce contract chainName (some cl) (.ok b) m).metrics.contractBalanceLow
          (chainName, contract.Name)
        = some (if b ≤ contract.Thresholds.MinBalance then .finite 1 else .finite 0)
      ∧ Action.setContractBalanceLow chainName contract.Name
          (if b ≤ contract.Thresholds.MinBalance then .finite 1 else .finite 0)
        ∈ (monitorContractOnce contract chainName (some cl) (.ok b) m).actions
      ∧ ((monitorContractOnce contract chainName (some cl) (.ok b) m).metrics.contractBalanceLow
          (chainName, contract.Name) = some (.finite 1) ↔ b ≤ contract.Thresholds.MinBalance)
      ∧ ((monitorContractOnce contract chainName (some cl) (.ok b) m).metrics.contractBalanceLow
          (chainName, contract.Name) = some (.finite 0) ↔ ¬ b ≤ contract.Thresholds.MinBalance))
    ∧ (monitorContractOnce contract chainName (some cl) (.ok contract.Thresholds.MinBalance)
        m).metrics.contractBalanceLow (chainName, contract.Name) = some (.finite 1)
    ∧ (monitorContractOnce contract chainName (some cl) (.ok (contract.Thresholds.MinBalance + 1))
        m).metrics.contractBalanceLow (chainName, contract.Name) = some (.finite 0) := by
  have key : ∀ b : Int,
      (monitorContractOnce contract chainName (some cl) (.ok b) m).metrics.contractBalanceLow
          (chainName, contract.Name)
        = some (if b ≤ contract.Thresholds.MinBalance then .finite 1 else .finite 0) := by
    intro b
    simp only [monitorContractOnce, GaugeVec.set, bigCmp_le_zero, if_true]
  refine ⟨fun b => ⟨key b, ?_, ?_, ?_⟩, ?_, ?_⟩
  · simp only [monitorContractOnce, bigCmp_le_zero]
    simp
  · rw [key b]
    by_cases h : b ≤ contract.Thresholds.MinBalance
    · simp [h]
    · simp [h]
  · rw [key b]
    by_cases h : b ≤ contract.Thresholds.MinBalance
    · simp [h]
    · simp [h]
  · rw [key, if_pos le_rfl]
  · rw [key, if_neg (by omega)]

/-- C8: after a successful fetch of the balance `b`, `monitorContractOnce`
sets the balance gauge of its label pair to the `float64` nearest `b` divided
by `params.Ether`; for `b = 2 * 10^18` that value is exactly `2`. -/
theorem balance_gauge_in_ether (contract : WithFundThreshold) (chainName : String) (cl : Client)
    (m : Metrics) :
    (∀ b : Int,
      (monitorContractOnce contract chainName (some cl) (.ok b) m).metrics.contractBalance
          (chainName, contract.Name) = some ((Float64.ofBigInt b).div Ether)
      ∧ Action.setContractBalance chainName contract.Name ((Float64.ofBigInt b).div Ether)
        ∈ (monitorContractOnce contract chainName (some cl) (.ok b) m).actions)
    ∧ (monitorContractOnce contract chainName (some cl) (.ok (2 * 10 ^ 18))
        m).metrics.contractBalance (chainName, contract.Name) = some (.finite 2)
    ∧ Action.setContractBalance chainName contract.Name (.finite 2)
        ∈ (monitorContractOnce contract chainName (some cl) (.ok (2 * 10 ^ 18)) m).actions := by
  have key : ∀ b : Int,
      (monitorContractOnce contract chainName (some cl) (.ok b) m).metrics.contractBalance
          (chainName, contract.Name) = some ((Float64.ofBigInt b).div Ether)
      ∧ Action.setContractBalance chainName contract.Name ((Float64.ofBigInt b).div Ether)
        ∈ (monitorContractOnce contract chainName (some cl) (.ok b) m).actions := by
    intro b
    constructor
    · simp only [monitorContractOnce, GaugeVec.set, if_true]
    · simp [monitorContractOnce]
  have h2 : (2 * 10 ^ 18 : Int) = 2000000000000000000 := by norm_num
  refine ⟨key, ?_, ?_⟩
  · rw [(key _).1, h2, two_ether_in_ether]
  · have h := (key (2 * 10 ^ 18)).2
    rw [h2, two_ether_in_ether] at h
    rw [h2]
    exact h


/-! ## The poller loop: lemmas -/

/-- A poller that is blocked in its `select` after the wake-ups `ws` goes on
with the wake-ups `ws2` from the gauges it has reached. -/
theorem pollerLoop_append (contract : WithFundThreshold) (chainName : String)
    (client : Option Client) (ws ws2 : List Wake) (m : Metrics)
    (hrun : (pollerLoop contract chainName client m ws).1.status = .running) :
    pollerLoop contract chainName client m (ws ++ ws2)
      = ((pollerLoop contract chainName client
            (pollerLoop contract chainName client m ws).1.metrics ws2).1,
         (pollerLoop contract chainName client m ws).2
           ++ (pollerLoop contract chainName client
                (pollerLoop contract chainName client m ws).1.metrics ws2).2) := by
  induction ws generalizing m with
  | nil => simp [pollerLoop]
  | cons w ws ih =>
    cases w with
    | done => simp [pollerLoop] at hrun
    | tick answer ctxErr =>
      simp only [List.cons_append, pollerLoop] at hrun ⊢
      cases hres : (monitorContractOnce contract chainName client answer m).result with
      | panicked => simp [hres] at hrun
      | returned err =>
        simp only [hres] at hrun ⊢
        cases ctxErr with
        | true => simp at hrun
        | false =>
          cases err with
          | some e =>
            simp only [Bool.false_eq_true, if_false] at hrun ⊢
            rw [List.append_eq, ih _ hrun]
            simp
          | none =>
            simp only [Bool.false_eq_true, if_false] at hrun ⊢
            rw [List.append_eq, ih _ hrun]
            simp

/-- Over ticks that all fail while the context is live, the loop stays
blocked in its `select` with the gauges it started from, writes no gauge, and
calls `BalanceAt` once per tick. -/
theorem pollerLoop_failing (contract : WithFundThreshold) (chainName : String) (cl : Client)
    (m : Metrics) (ws : List Wake) (hfail : ∀ w ∈ ws, ∃ e, w = Wake.tick (.error e) false) :
    (pollerLoop contract chainName (some cl) m ws).1 = { status := .running, metrics := m }
      ∧ (∀ a ∈ (pollerLoop contract chainName (some cl) m ws).2, a.isMetricWrite = false)
      ∧ (pollerLoop contract chainName (some cl) m ws).2.countP Action.isFetch = ws.length := by
  induction ws with
  | nil => simp [pollerLoop]
  | cons w ws ih =>
    obtain ⟨e, rfl⟩ := hfail w (List.mem_cons_self _ _)
    obtain ⟨h1, h2, h3⟩ := ih fun w hw => hfail w (List.mem_cons_of_mem _ hw)
    simp only [pollerLoop, monitorContractOnce, Bool.false_eq_true, if_false]
    refine ⟨h1, ?_, ?_⟩
    · intro a ha
      simp only [List.cons_append, List.nil_append, List.mem_cons] at ha
      rcases ha with rfl | rfl | ha
      · rfl
      · rfl
      · exact h2 a ha
    · simp [List.countP_cons, Action.isFetch, h3]

/-- The first action of a tick on a client is the call of `BalanceAt`. -/
theorem pollerLoop_tick_fetches (contract : WithFundThreshold) (chainName : String) (cl : Client)
    (m : Metrics) (answer : Except Error Int) (ctxErr : Bool) (rest : List Wake) :
    ∃ tail, (pollerLoop contract chainName (some cl) m (.tick answer ctxErr :: rest)).2
      = Action.balanceAt cl contract.Address :: tail := by
  cases answer <;> cases ctxErr <;> simp [pollerLoop, monitorContractOnce]

/-! ## The claims on `monitorContractForever` -/

/-- C6: over any number `N` of consecutive ticks on which the fetch fails
while the context is not cancelled, the poller is still blocked in its
`select` (it has not returned), the gauges are the ones it started with and no
action of it wrote a gauge, it called `BalanceAt` on each of the `N` ticks, a
further failed tick leaves the same state, and on tick `N + 1`, whatever that
tick brings, its next action is to call `BalanceAt` again. -/
theorem retries_after_failed_fetches (contract : WithFundThreshold) (chainName : String)
    (cl : Client) (m : Metrics) (ws : List Wake)
    (hfail : ∀ w ∈ ws, ∃ e, w = Wake.tick (.error e) false) :
    (monitorContractForever contract chainName (some cl) m ws).1
        = { status := .running, metrics := m }
      ∧ (∀ a ∈ (monitorContractForever contract chainName (some cl) m ws).2,
          a.isMetricWrite = false)
      ∧ (monitorContractForever contract chainName (some cl) m ws).2.countP Action.isFetch
          = ws.length
      ∧ (∀ e, (monitorContractForever contract chainName (some cl) m
            (ws ++ [Wake.tick (.error e) false])).1
          = (monitorContractForever contract chainName (some cl) m ws).1)
      ∧ ∀ answer ctxErr, ∃ tail,
          (monitorContractForever contract chainName (some cl) m
              (ws ++ [Wake.tick answer ctxErr])).2
            = (monitorContractForever contract chainName (some cl) m ws).2
              ++ Action.balanceAt cl contract.Address :: tail := by
  obtain ⟨h1, h2, h3⟩ := pollerLoop_failing contract chainName cl m ws hfail
  have hrun : (pollerLoop contract chainName (some cl) m ws).1.status = .running := by rw [h1]
  refine ⟨h1, ?_, ?_, ?_, ?_⟩
  · intro a ha
    simp only [monitorContractForever, List.mem_cons] at ha
    rcases ha with rfl | ha
    · rfl
    · exact h2 a ha
  · simp only [monitorContractForever, List.countP_cons, Action.isFetch, h3]
    simp
  · intro e
    have hfail2 : ∀ w ∈ ws ++ [Wake.tick (.error e) false], ∃ e, w = Wake.tick (.error e) false := by
      intro w hw
      rcases List.mem_append.1 hw with hw | hw
      · exact hfail w hw
      · exact ⟨e, List.mem_singleton.1 hw⟩
    simp only [monitorContractForever]
    rw [(pollerLoop_failing contract chainName cl m _ hfail2).1, h1]
  · intro answer ctxErr
    obtain ⟨tail, htail⟩ := pollerLoop_tick_fetches contract chainName cl
      (pollerLoop contract chainName (some cl) m ws).1.metrics answer ctxErr []
    refine ⟨tail, ?_⟩
    simp only [monitorContractForever]
    rw [pollerLoop_append contract chainName (some cl) ws _ m hrun, htail]
    simp

/-- Witness of C6: two failed ticks of the poller of `portal` on the
execution chain. -/
theorem retries_after_failed_fetches_witness :
    (monitorContractForever portal "omni_evm" (some 100) noMetrics twoTimeouts).1
        = { status := .running, metrics := noMetrics }
      ∧ (∀ a ∈ (monitorContractForever portal "omni_evm" (some 100) noMetrics twoTimeouts).2,
          a.isMetricWrite = false)
      ∧ (monitorContractForever portal "omni_evm" (some 100) noMetrics twoTimeouts).2.countP
          Action.isFetch = twoTimeouts.length
      ∧ (∀ e, (monitorContractForever portal "omni_evm" (some 100) noMetrics
            (twoTimeouts ++ [Wake.tick (.error e) false])).1
          = (monitorContractForever portal "omni_evm" (some 100) noMetrics twoTimeouts).1)
      ∧ ∀ answer ctxErr, ∃ tail,
          (monitorContractForever portal "omni_evm" (some 100) noMetrics
              (twoTimeouts ++ [Wake.tick answer ctxErr])).2
            = (monitorContractForever portal "omni_evm" (some 100) noMetrics twoTimeouts).2
              ++ Action.balanceAt 100 portal.Address :: tail :=
  retries_after_failed_fetches portal "omni_evm" 100 noMetrics twoTimeouts (by
    intro w hw
    simp only [twoTimeouts, List.mem_cons, List.mem_singleton, List.not_mem_nil, or_false,
      or_self] at hw
    exact ⟨"timeout", hw⟩)

/-- C7: when the poller is blocked in its `select` after the wake-ups `ws` and
the next case it takes is `<-ctx.Done()`, it returns: whatever wake-ups `rest`
follow, its actions are the ones it had performed before (no further call of
`BalanceAt`, no further gauge write) and the gauges are the ones it had
reached. -/
theorem cancel_while_waiting_stops (contract : WithFundThreshold) (chainName : String)
    (client : Option Client) (m : Metrics) (ws rest : List Wake)
    (hwait : (monitorContractForever contract chainName client m ws).1.status = .running) :
    (monitorContractForever contract chainName client m (ws ++ Wake.done :: rest)).1.status
        = .exited
      ∧ (monitorContractForever contract chainName client m (ws ++ Wake.done :: rest)).1.metrics
        = (monitorContractForever contract chainName client m ws).1.metrics
      ∧ (monitorContractForever contract chainName client m (ws ++ Wake.done :: rest)).2
        = (monitorContractForever contract chainName client m ws).2 := by
  have hrun : (pollerLoop contract chainName client m ws).1.status = .running := hwait
  simp only [monitorContractForever]
  rw [pollerLoop_append contract chainName client ws _ m hrun]
  simp [pollerLoop]

/-- Witness of C7: the poller of `portal` has polled once with success, then
the context is cancelled and two ticks follow. -/
theorem cancel_while_waiting_stops_witness :
    (monitorContractForever portal "omni_evm" (some 100) noMetrics
        ([Wake.tick (.ok 9) false] ++ Wake.done :: twoTimeouts)).1.status = .exited
      ∧ (monitorContractForever portal "omni_evm" (some 100) noMetrics
          ([Wake.tick (.ok 9) false] ++ Wake.done :: twoTimeouts)).1.metrics
        = (monitorContractForever portal "omni_evm" (some 100) noMetrics
            [Wake.tick (.ok 9) false]).1.metrics
      ∧ (monitorContractForever portal "omni_evm" (some 100) noMetrics
          ([Wake.tick (.ok 9) false] ++ Wake.done :: twoTimeouts)).2
        = (monitorContractForever portal "omni_evm" (some 100) noMetrics
            [Wake.tick (.ok 9) false]).2 :=
  cancel_while_waiting_stops portal "omni_evm" (some 100) noMetrics [Wake.tick (.ok 9) false]
    twoTimeouts (by rfl)


end Monitor
